import Mathlib

/-!
Verification development for the VEZC flight-administration dashboard
(`home.py`).  The active script (the non-commented part of the file) is
embedded shallowly: a spreadsheet is a `Table` of `Cell`s, a loaded row is a
`FlightRecord`, and each top-level pandas expression of the script becomes a
Lean function of the same name (`load_data`, `filter_dataframe`,
`to_excel_download`, `veld_coords`, `starts_per_type`, `hours_per_type`,
`last_flights`).  Floating-point columns are modelled with exact rationals;
calendar dates are modelled as integer day numbers (`days_from_civil`
converts a civil date to its day number, as the underlying datetime library
does).
-/

/-- A raw spreadsheet cell: blank (pandas `NaN`/`NaT`), a text cell, a
numeric cell, or a native date cell (carried as an integer day number). -/
inductive Cell where
  | empty : Cell
  | str (s : String) : Cell
  | num (q : ℚ) : Cell
  | dateVal (d : ℤ) : Cell
deriving DecidableEq, Repr

/-- A decoded spreadsheet: a header row of column labels and the data rows,
each row a list of cells aligned with the header. -/
structure Table where
  header : List String
  rows : List (List Cell)
deriving DecidableEq, Repr

/-- One loaded row of the dataframe produced by `load_data`.  Every field is
optional because the script keeps `NaT`/`NaN` entries: `pd.to_datetime` and
`pd.to_timedelta` are called with `errors='coerce'` and nothing is dropped
afterwards.  `datum` is a day number, `vluchtduur` is in hours. -/
structure FlightRecord where
  datum : Option ℤ
  veld : Option String
  type_ : Option String
  registratie : Option String
  startmethode : Option String
  vluchtduur : Option ℚ
deriving DecidableEq, Repr

/-- Failure of the load/validation pipeline: a `KeyError` escaping
`load_data` when a parsed column is absent, or the explicit
missing-columns error of the validation block (lines 308-312). -/
inductive LoadError where
  | keyError (col : String) : LoadError
  | schemaError (missing : List String) : LoadError
deriving DecidableEq, Repr

/-- Value of a decimal digit character, `none` on a non-digit. -/
def digitVal (c : Char) : Option ℕ :=
  if c.isDigit then some (c.toNat - 48) else none

/-- Read a nonempty all-digit character list as a natural number. -/
def digitsToNat (cs : List Char) : Option ℕ :=
  cs.foldl
    (fun acc c =>
      match acc, digitVal c with
      | some a, some d => some (a * 10 + d)
      | _, _ => none)
    (if cs.isEmpty then none else some 0)

/-- Split a character list on a separator character. -/
def splitOnChar (sep : Char) : List Char → List (List Char)
  | [] => [[]]
  | c :: rest =>
    let r := splitOnChar sep rest
    if c = sep then [] :: r
    else
      match r with
      | [] => [[c]]
      | h :: t => (c :: h) :: t

/-- Gregorian leap-year test. -/
def isLeap (y : ℕ) : Bool :=
  (y % 4 = 0 && y % 100 ≠ 0) || y % 400 = 0

/-- Number of days in a month of a given year. -/
def daysInMonth (m y : ℕ) : ℕ :=
  if m = 2 then (if isLeap y then 29 else 28)
  else if m = 4 ∨ m = 6 ∨ m = 9 ∨ m = 11 then 30
  else 31

/-- Day number of a civil date (days since 1970-01-01, Gregorian), for
years ≥ 1.  Standard era/year-of-era decomposition. -/
def days_from_civil (y m d : ℕ) : ℤ :=
  let y' := if m ≤ 2 then y - 1 else y
  let era := y' / 400
  let yoe := y' % 400
  let mp := if 2 < m then m - 3 else m + 9
  let doy := (153 * mp + 2) / 5 + d - 1
  let doe := yoe * 365 + yoe / 4 - yoe / 100 + doy
  (era * 146097 + doe : ℤ) - 719468

/-- Parse `d`, `m`, `y` digit groups into a day number, checking calendar
validity; `none` when invalid. -/
def civilFromGroups (dg mg yg : List Char) : Option ℤ := do
  let d ← digitsToNat dg
  let m ← digitsToNat mg
  let y ← digitsToNat yg
  if 1 ≤ m ∧ m ≤ 12 ∧ 1 ≤ d ∧ d ≤ daysInMonth m y ∧ 1 ≤ y then
    pure (days_from_civil y m d)
  else none

/-- Day-first textual date: `D-M-Y` or `D/M/Y`, mirroring
`pd.to_datetime(..., dayfirst=True)` on the formats the club file uses;
anything else is unparseable. -/
def parse_date_chars (cs : List Char) : Option ℤ :=
  match splitOnChar '-' cs with
  | [dg, mg, yg] => civilFromGroups dg mg yg
  | _ =>
    match splitOnChar '/' cs with
    | [dg, mg, yg] => civilFromGroups dg mg yg
    | _ => none

/-- Unsigned `H:MM:SS` elapsed time in hours: the total seconds divided by
3600, built with `mkRat`. -/
def parseHMS (cs : List Char) : Option ℚ :=
  match splitOnChar ':' cs with
  | [hg, mg, sg] => do
    let h ← digitsToNat hg
    let m ← digitsToNat mg
    let s ← digitsToNat sg
    pure (mkRat (h * 3600 + m * 60 + s) 3600)
  | _ => none

/-- Signed `HH:MM:SS`-style duration string, in hours. -/
def parse_duration_chars : List Char → Option ℚ
  | '-' :: rest => (parseHMS rest).map Neg.neg
  | cs => parseHMS cs

/-- `pd.to_datetime(cell, errors='coerce', dayfirst=True)` on one cell,
yielding a day number.  A numeric cell is nanoseconds since the epoch. -/
def parse_datum : Cell → Option ℤ
  | Cell.dateVal d => some d
  | Cell.str s => parse_date_chars s.data
  | Cell.num q => some ⌊q / (86400 * 1000000000 : ℚ)⌋
  | Cell.empty => none

/-- `pd.to_timedelta(cell, errors='coerce').total_seconds() / 3600` on one
cell.  A bare numeric cell is read with the default `ns` unit (truncated to
whole nanoseconds by the `Timedelta` representation), so a number `q`
becomes `⌊q⌋ / 3.6e12` hours. -/
def parse_vluchtduur : Cell → Option ℚ
  | Cell.str s => parse_duration_chars s.data
  | Cell.num q => some (mkRat q.floor 3600000000000)
  | Cell.dateVal _ => none
  | Cell.empty => none

/-- Text content of a cell for the free-text columns; blank and non-text
cells give `none` (pandas `NaN`). -/
def cellStr : Cell → Option String
  | Cell.str s => some s
  | _ => none

/-- Cell of a row under a named column: position of the label in the
header, `Cell.empty` when the row is ragged there. -/
def getCell (hdr : List String) (row : List Cell) (c : String) : Cell :=
  match hdr.findIdx? (· = c) with
  | some i => row.getD i Cell.empty
  | none => Cell.empty

/-- One row of the dataframe after `load_data`'s column conversions. -/
def mkRecord (hdr : List String) (row : List Cell) : FlightRecord :=
  { datum := parse_datum (getCell hdr row "Datum")
    veld := cellStr (getCell hdr row "Veld")
    type_ := cellStr (getCell hdr row "Type")
    registratie := cellStr (getCell hdr row "Registratie")
    startmethode := cellStr (getCell hdr row "Startmethode")
    vluchtduur := parse_vluchtduur (getCell hdr row "Vluchtduur") }

/-- Lines 248-252: read the sheet, coerce `Datum` and `Vluchtduur`, return
the dataframe.  Accessing a missing column raises `KeyError` (`Datum` is
touched first); no row is filtered out. -/
def load_data (t : Table) : Except LoadError (List FlightRecord) :=
  if "Datum" ∈ t.header then
    if "Vluchtduur" ∈ t.header then
      Except.ok (t.rows.map (mkRecord t.header))
    else Except.error (LoadError.keyError "Vluchtduur")
  else Except.error (LoadError.keyError "Datum")

/-- Line 308: the required column set. -/
def expected_columns : List String :=
  ["Datum", "Veld", "Type", "Registratie", "Startmethode", "Vluchtduur"]

/-- Line 309: `expected_columns - set(df.columns)` (Python set iteration
order is unspecified; modelled in `expected_columns` order). -/
def missing_columns (t : Table) : List String :=
  expected_columns.filter (fun c => ¬ c ∈ t.header)

/-- The page's load path, lines 304-315: `load_data` first, then the
validation block which stops with the missing-column error. -/
def load_pipeline (t : Table) : Except LoadError (List FlightRecord) :=
  match load_data t with
  | Except.error e => Except.error e
  | Except.ok recs =>
    if missing_columns t = [] then Except.ok recs
    else Except.error (LoadError.schemaError (missing_columns t))

/-- One categorical constraint of `filter_dataframe`: `if sel: mask &=
col.isin(sel)`.  An empty selection is falsy (no constraint); a `NaN` cell
is never `isin` any selection. -/
def memMask (allowed : List String) (x : Option String) : Bool :=
  allowed.isEmpty ||
    (match x with
     | some v => allowed.contains v
     | none => false)

/-- Lower date bound: `if start: mask &= df['Datum'] >= start`.  A `NaT`
date compares false. -/
def fromMask (start : Option ℤ) (d : Option ℤ) : Bool :=
  match start with
  | none => true
  | some s =>
    match d with
    | some dd => s ≤ dd
    | none => false

/-- Upper date bound: `if end: mask &= df['Datum'] <= end`. -/
def toMask (stop : Option ℤ) (d : Option ℤ) : Bool :=
  match stop with
  | none => true
  | some e =>
    match d with
    | some dd => dd ≤ e
    | none => false

/-- The row-wise value of the boolean mask built by `filter_dataframe`
(lines 254-261): the elementwise conjunction of the six constraints, in
source order. -/
def rowMask (veld type_ registratie startmethode : List String)
    (start stop : Option ℤ) (r : FlightRecord) : Bool :=
  memMask veld r.veld && memMask type_ r.type_ &&
    memMask registratie r.registratie && memMask startmethode r.startmethode &&
    fromMask start r.datum && toMask stop r.datum

/-- Lines 254-262: `df[mask]` keeps, in order, the rows whose mask entry is
true. -/
def filter_dataframe (df : List FlightRecord)
    (veld type_ registratie startmethode : List String)
    (start stop : Option ℤ) : List FlightRecord :=
  df.filter (rowMask veld type_ registratie startmethode start stop)

/-- A record rendered back to a spreadsheet row by `df.to_excel`: dates as
native date cells, text as text, the duration column as its float value in
hours, missing values as blanks. -/
def recordToRow (r : FlightRecord) : List Cell :=
  [ (match r.datum with | some d => Cell.dateVal d | none => Cell.empty)
  , (match r.veld with | some s => Cell.str s | none => Cell.empty)
  , (match r.type_ with | some s => Cell.str s | none => Cell.empty)
  , (match r.registratie with | some s => Cell.str s | none => Cell.empty)
  , (match r.startmethode with | some s => Cell.str s | none => Cell.empty)
  , (match r.vluchtduur with | some q => Cell.num q | none => Cell.empty) ]

/-- Lines 264-268: serialize the record collection to spreadsheet form,
column labels and row order preserved (`index=False`). -/
def to_excel_download (df : List FlightRecord) : Table :=
  { header := expected_columns
    rows := df.map recordToRow }

/-- The non-null values of the `Type` column, in row order (what pandas
groups and counts after dropping `NaN` keys). -/
def typeVals (df : List FlightRecord) : List String :=
  (df.map (fun r => r.type_)).reduceOption

/-- Descending-count order on labelled counts. -/
def countGE (a b : String × ℕ) : Prop := b.2 ≤ a.2

instance : DecidableRel countGE := fun a b => inferInstanceAs (Decidable (b.2 ≤ a.2))

instance : IsTotal (String × ℕ) countGE := ⟨fun a b => le_total b.2 a.2⟩

instance : IsTrans (String × ℕ) countGE := ⟨fun _ _ _ h1 h2 => le_trans h2 h1⟩

/-- Line 345: `filtered_df['Type'].value_counts()` — occurrences of each
distinct non-null type, most frequent first; `NaN` is dropped. -/
def starts_per_type (df : List FlightRecord) : List (String × ℕ) :=
  List.insertionSort countGE
    ((typeVals df).dedup.map (fun ty => (ty, (typeVals df).count ty)))

/-- Hours flown on one type: `groupby('Type')['Vluchtduur'].sum()` for a
single group, `NaN` durations skipped (summed as 0). -/
def hoursSum (df : List FlightRecord) (ty : String) : ℚ :=
  ((df.filter (fun r => r.type_ = some ty)).map
    (fun r => r.vluchtduur.getD 0)).sum

/-- Descending-hours order on labelled hour totals. -/
def hoursGE (a b : String × ℚ) : Prop := b.2 ≤ a.2

instance : DecidableRel hoursGE := fun a b => inferInstanceAs (Decidable (b.2 ≤ a.2))

instance : IsTotal (String × ℚ) hoursGE := ⟨fun a b => le_total b.2 a.2⟩

instance : IsTrans (String × ℚ) hoursGE := ⟨fun _ _ _ h1 h2 => le_trans h2 h1⟩

/-- Line 347: `groupby('Type')['Vluchtduur'].sum().sort_values(ascending=False)`. -/
def hours_per_type (df : List FlightRecord) : List (String × ℚ) :=
  List.insertionSort hoursGE
    ((typeVals df).dedup.map (fun ty => (ty, hoursSum df ty)))

/-- Most recent date flown on one type: `groupby('Type')['Datum'].max()`
for a single group; `NaT` rows are skipped and an all-`NaT` group gives
`NaT`. -/
def maxDate (df : List FlightRecord) (ty : String) : Option ℤ :=
  ((df.filter (fun r => r.type_ = some ty)).filterMap
    (fun r => r.datum)).max?

/-- Line 392: `df.groupby('Type')['Datum'].max()` — one entry per distinct
non-null type with its most recent date. -/
def last_flights (df : List FlightRecord) : List (String × Option ℤ) :=
  (typeVals df).dedup.map (fun ty => (ty, maxDate df ty))

/-- Lines 391-394: the recency table, with `Dagen geleden` computed as
`(today - last).dt.days` against the single normalized reference `today`. -/
def last_flights_table (df : List FlightRecord) (today : ℤ) :
    List (String × Option ℤ × Option ℤ) :=
  (last_flights df).map (fun p => (p.1, p.2, p.2.map (fun d => today - d)))

/-- The aggregates the page shows for one rendering pass. -/
structure PageStats where
  starts : List (String × ℕ)
  hours : List (String × ℚ)
  recency : List (String × Option ℤ × Option ℤ)
deriving Repr

/-- Lines 327-395 of the script for one pass: the filtered frame feeds the
starts and hours tables (lines 345-347), while the recency table of line
392 is grouped over the unfiltered `df`. -/
def render_stats (df : List FlightRecord)
    (veld type_ registratie startmethode : List String)
    (start stop : Option ℤ) (today : ℤ) : PageStats :=
  let filtered_df := filter_dataframe df veld type_ registratie startmethode start stop
  { starts := starts_per_type filtered_df
    hours := hours_per_type filtered_df
    recency := last_flights_table df today }

/-- Lines 271-288: the `veld_coords` dict literal, in source order,
coordinates as exact decimals.  `Terlet` appears twice. -/
def veld_coords : List (String × ℚ × ℚ) :=
  [ ("Venlo", (mkRat 51387 1000, mkRat 6156 1000))
  , ("Eindhoven", (mkRat 51450 1000, mkRat 5374 1000))
  , ("Malden", (mkRat 51778 1000, mkRat 5857 1000))
  , ("Terlet", (mkRat 52051 1000, mkRat 5936 1000))
  , ("Gilze", (mkRat 51567 1000, mkRat 4930 1000))
  , ("Soesterberg", (mkRat 52123 1000, mkRat 5276 1000))
  , ("Weert", (mkRat 51253 1000, mkRat 5705 1000))
  , ("Schmallenberg", (mkRat 511526 10000, mkRat 82908 10000))
  , ("Kamp Linfort", (mkRat 514958 10000, mkRat 65321 10000))
  , ("Dahlemer-Binz (DE)", (mkRat 5040454 100000, mkRat 652994 100000))
  , ("LeBlanc (F)", (mkRat 46630 1000, mkRat 1060 1000))
  , ("Sinsheim", (mkRat 492489 10000, mkRat 88885 10000))
  , ("Terlet", (mkRat 520603 10000, mkRat 59386 10000))
  , ("Stadlohn", (mkRat 519921 10000, mkRat 69138 10000))
  , ("Stendal", (mkRat 526041 10000, mkRat 118518 10000)) ]

/-- Sequential dict construction: each entry assigns its key, so the last
assignment to a key wins (Python dict-literal semantics).  `dictGet l k` is
the final binding of `k`. -/
def dictGet (l : List (String × ℚ × ℚ)) (k : String) : Option (ℚ × ℚ) :=
  l.foldl (fun acc p => if p.1 = k then some p.2 else acc) none

/-- Spec-side filter predicate, following the spec's wording: logical AND
across dimensions, logical OR across a dimension's allowed values, empty
component means no constraint, date bounds inclusive and independent. -/
def specSatisfies (veld type_ registratie startmethode : List String)
    (start stop : Option ℤ) (r : FlightRecord) : Prop :=
  (veld = [] ∨ ∃ v ∈ veld, r.veld = some v) ∧
  (type_ = [] ∨ ∃ v ∈ type_, r.type_ = some v) ∧
  (registratie = [] ∨ ∃ v ∈ registratie, r.registratie = some v) ∧
  (startmethode = [] ∨ ∃ v ∈ startmethode, r.startmethode = some v) ∧
  (∀ s, start = some s → ∃ d, r.datum = some d ∧ s ≤ d) ∧
  (∀ e, stop = some e → ∃ d, r.datum = some d ∧ d ≤ e)

/-- Spec-side comparison of two duration fields at one-second precision. -/
def durationWithinSecond : Option ℚ → Option ℚ → Prop
  | some a, some b => |a - b| ≤ 1 / 3600
  | none, none => True
  | some _, none => False
  | none, some _ => False

instance (a b : Option ℚ) : Decidable (durationWithinSecond a b) :=
  match a, b with
  | some a, some b => inferInstanceAs (Decidable (|a - b| ≤ 1 / 3600))
  | none, none => inferInstanceAs (Decidable True)
  | some _, none => inferInstanceAs (Decidable False)
  | none, some _ => inferInstanceAs (Decidable False)

/-- The record a round trip through export and reload actually yields: the
float hours value is rewritten by `pd.to_timedelta`'s default `ns` unit, so
`h` hours come back as `⌊h⌋ / 3.6e12` hours; every other field survives. -/
def scaleRec (r : FlightRecord) : FlightRecord :=
  { r with vluchtduur := r.vluchtduur.map (fun h => mkRat h.floor 3600000000000) }

/-- A spreadsheet with all six columns in which the second row has an
unparseable duration and the third a negative one. -/
def tBad : Table :=
  { header := expected_columns
    rows :=
      [ [Cell.dateVal 19817, Cell.str "Venlo", Cell.str "K13",
         Cell.str "PH-1", Cell.str "Lier", Cell.str "01:30:00"]
      , [Cell.dateVal 19818, Cell.str "Venlo", Cell.str "K13",
         Cell.str "PH-2", Cell.str "Lier", Cell.str "xx"]
      , [Cell.dateVal 19819, Cell.str "Eindhoven", Cell.str "ASK21",
         Cell.str "PH-3", Cell.str "Sleep", Cell.str "-00:10:00"] ] }

/-- The records `load_data` produces from `tBad`: all three rows survive,
the bad duration as `none` and the negative one as `-1/6` hours. -/
def tBadRecs : List FlightRecord :=
  [ ⟨some 19817, some "Venlo", some "K13", some "PH-1", some "Lier", some (mkRat 3 2)⟩
  , ⟨some 19818, some "Venlo", some "K13", some "PH-2", some "Lier", none⟩
  , ⟨some 19819, some "Eindhoven", some "ASK21", some "PH-3", some "Sleep",
     some (mkRat (-1) 6)⟩ ]

/-- A table whose header lacks the `Datum` column. -/
def tMissingDatum : Table :=
  { header := ["Veld", "Type", "Registratie", "Startmethode", "Vluchtduur"]
    rows := [[Cell.str "Venlo", Cell.str "K13", Cell.str "PH-1",
              Cell.str "Lier", Cell.str "01:30:00"]] }

/-- A table whose header lacks only the `Veld` column. -/
def tMissingVeld : Table :=
  { header := ["Datum", "Type", "Registratie", "Startmethode", "Vluchtduur"]
    rows := [[Cell.dateVal 19817, Cell.str "K13", Cell.str "PH-1",
              Cell.str "Lier", Cell.str "01:30:00"]] }

/-- A well-formed record with a 1.5-hour flight. -/
def rtRec : FlightRecord :=
  ⟨some 19817, some "Venlo", some "K13", some "PH-123", some "Lier", some (mkRat 3 2)⟩

/-- What `rtRec` becomes after export and reload: the duration column's
float `1.5` is reread as nanoseconds. -/
def rtRecBack : FlightRecord :=
  ⟨some 19817, some "Venlo", some "K13", some "PH-123", some "Lier",
   some (mkRat 1 3600000000000)⟩

/-- Three flights over two types, for exercising the recency table. -/
def df4 : List FlightRecord :=
  [ ⟨some 10, some "Venlo", some "A", some "P1", some "L", some 1⟩
  , ⟨some 20, some "Venlo", some "A", some "P2", some "L", some 1⟩
  , ⟨some 5, some "Venlo", some "B", some "P3", some "L", some 1⟩ ]

/-- A record whose `Type` cell was blank. -/
def noTypeRec : FlightRecord :=
  ⟨some 19817, some "Venlo", none, some "PH-1", some "Lier", some 1⟩

/-- A record with no parseable date. -/
def rec0 : FlightRecord :=
  ⟨none, some "Venlo", some "K13", some "PH-1", some "Lier", some 1⟩

theorem memMask_iff (allowed : List String) (x : Option String) :
    memMask allowed x = true ↔ (allowed = [] ∨ ∃ v ∈ allowed, x = some v) := by
  cases x with
  | none =>
    simp only [memMask, Bool.or_eq_true, List.isEmpty_iff]
    constructor
    · rintro (h | h)
      · exact Or.inl h
      · cases h
    · rintro (h | ⟨v, _, h⟩)
      · exact Or.inl h
      · cases h
  | some a =>
    simp only [memMask, Bool.or_eq_true, List.isEmpty_iff, List.contains, List.elem_iff]
    constructor
    · rintro (h | h)
      · exact Or.inl h
      · exact Or.inr ⟨a, h, rfl⟩
    · rintro (h | ⟨v, hv, hx⟩)
      · exact Or.inl h
      · exact Or.inr ((Option.some.inj hx) ▸ hv)

theorem fromMask_iff (start : Option ℤ) (d : Option ℤ) :
    fromMask start d = true ↔ (∀ s, start = some s → ∃ dd, d = some dd ∧ s ≤ dd) := by
  cases start with
  | none => simp [fromMask]
  | some s =>
    cases d with
    | none => simp [fromMask]
    | some dd => simp [fromMask]

theorem toMask_iff (stop : Option ℤ) (d : Option ℤ) :
    toMask stop d = true ↔ (∀ e, stop = some e → ∃ dd, d = some dd ∧ dd ≤ e) := by
  cases stop with
  | none => simp [toMask]
  | some e =>
    cases d with
    | none => simp [toMask]
    | some dd => simp [toMask]

theorem rowMask_iff (veld type_ registratie startmethode : List String)
    (start stop : Option ℤ) (r : FlightRecord) :
    rowMask veld type_ registratie startmethode start stop r = true ↔
      specSatisfies veld type_ registratie startmethode start stop r := by
  simp only [rowMask, Bool.and_eq_true, specSatisfies, memMask_iff, fromMask_iff,
    toMask_iff]
  tauto

theorem zip_map_self {α β : Type} (f : α → β) :
    ∀ (l : List α), ∀ p ∈ l.zip (l.map f), p.2 = f p.1 := by
  intro l
  induction l with
  | nil => intro p hp; cases hp
  | cons a rest ih =>
    intro p hp
    rw [List.map_cons, List.zip_cons_cons] at hp
    rcases List.mem_cons.mp hp with h | h
    · rw [h]
    · exact ih p h

theorem dict_foldl_mem (l : List (String × ℚ × ℚ)) :
    ∀ (acc : Option (ℚ × ℚ)) (k : String) (v : ℚ × ℚ),
      l.foldl (fun acc p => if p.1 = k then some p.2 else acc) acc = some v →
      (k, v) ∈ l ∨ acc = some v := by
  induction l with
  | nil => intro acc k v h; exact Or.inr h
  | cons p rest ih =>
    intro acc k v h
    simp only [List.foldl_cons] at h
    rcases ih _ k v h with hmem | hacc
    · exact Or.inl (List.mem_cons_of_mem _ hmem)
    · by_cases hk : p.1 = k
      · rw [if_pos hk] at hacc
        injection hacc with hv
        left
        have : p = (k, v) := by
          rcases p with ⟨p1, p2⟩
          simp only at hk hv
          rw [hk, hv]
        rw [← this]
        exact List.mem_cons_self _ _
      · rw [if_neg hk] at hacc
        exact Or.inr hacc

theorem mkRecord_recordToRow (r : FlightRecord) :
    mkRecord expected_columns (recordToRow r) = scaleRec r := by
  rcases r with ⟨d, v, t, g, s, q⟩
  cases d <;> cases v <;> cases t <;> cases g <;> cases s <;> cases q <;> rfl

theorem typeVals_length (df : List FlightRecord) :
    (typeVals df).length = (df.filter (fun r => r.type_.isSome)).length := by
  induction df with
  | nil => rfl
  | cons r rest ih =>
    cases h : r.type_ with
    | none =>
      simp only [typeVals, List.map_cons, List.filter_cons, h] at *
      simpa [List.reduceOption_cons_of_none] using ih
    | some a =>
      simp only [typeVals, List.map_cons, List.filter_cons, h] at *
      simpa [List.reduceOption_cons_of_some] using ih

theorem load_pipeline_ok (t : Table) (recs : List FlightRecord)
    (h : load_data t = Except.ok recs) :
    load_pipeline t =
      if missing_columns t = [] then Except.ok recs
      else Except.error (LoadError.schemaError (missing_columns t)) := by
  unfold load_pipeline
  rw [h]

theorem load_pipeline_err (t : Table) (e : LoadError)
    (h : load_data t = Except.error e) :
    load_pipeline t = Except.error e := by
  unfold load_pipeline
  rw [h]

theorem maxDate_spec (df : List FlightRecord) (ty : String) (d : ℤ)
    (h : maxDate df ty = some d) :
    (∃ rec ∈ df, rec.type_ = some ty ∧ rec.datum = some d) ∧
    (∀ rec ∈ df, rec.type_ = some ty → ∀ d2, rec.datum = some d2 → d2 ≤ d) := by
  unfold maxDate at h
  haveI : Std.Antisymm ((· : ℤ) ≤ ·) := ⟨fun h1 h2 => le_antisymm h1 h2⟩
  rw [List.max?_eq_some_iff (fun a => le_refl a) (fun a b => max_choice a b)
    (fun _ _ _ => max_le_iff)] at h
  obtain ⟨hmem, hle⟩ := h
  constructor
  · rcases List.mem_filterMap.mp hmem with ⟨rec, hrec, hd⟩
    rcases List.mem_filter.mp hrec with ⟨hrdf, hty⟩
    exact ⟨rec, hrdf, by simpa using hty, hd⟩
  · intro rec hrdf hty d2 hd2
    exact hle d2
      (List.mem_filterMap.mpr ⟨rec, List.mem_filter.mpr ⟨hrdf, by simpa using hty⟩, hd2⟩)

/-- C1: the claim says every row whose date or duration fails to parse, or
whose duration is not positive, is dropped by the load.  Counterexample:
`tBad`'s second row (duration `"xx"`) and third row (duration
`"-00:10:00"`) both survive `load_pipeline`, the former with a null
duration and the latter with a negative one. -/
theorem C1_counterexample :
    load_pipeline tBad = Except.ok tBadRecs ∧
    tBadRecs.length = tBad.rows.length ∧
    ¬ (∀ r ∈ tBadRecs, r.vluchtduur ≠ none) ∧
    ¬ (∀ r ∈ tBadRecs, 0 < r.vluchtduur.getD 1) := by
  refine ⟨rfl, rfl, by decide, by decide⟩

/-- C1 (amended): the load drops no rows at all — it returns exactly one
record per input row, in order, and a row whose date or duration fails to
parse is retained with a null in that field; non-positive durations are
retained as well. -/
theorem C1_load_keeps_all_rows (t : Table) (recs : List FlightRecord)
    (h : load_data t = Except.ok recs) :
    recs.length = t.rows.length ∧
    ∀ p ∈ t.rows.zip recs,
      p.2.datum = parse_datum (getCell t.header p.1 "Datum") ∧
      p.2.vluchtduur = parse_vluchtduur (getCell t.header p.1 "Vluchtduur") := by
  unfold load_data at h
  by_cases h1 : "Datum" ∈ t.header
  · by_cases h2 : "Vluchtduur" ∈ t.header
    · rw [if_pos h1, if_pos h2] at h
      injection h with h
      subst h
      refine ⟨by simp, fun p hp => ?_⟩
      have := zip_map_self (mkRecord t.header) t.rows p hp
      rw [this]
      exact ⟨rfl, rfl⟩
    · rw [if_pos h1, if_neg h2] at h
      cases h
  · rw [if_neg h1] at h
    cases h

/-- C1 witness: the amended statement evaluated on the concrete table
`tBad`, whose three rows all survive. -/
theorem C1_witness :
    tBadRecs.length = tBad.rows.length ∧
    ∀ p ∈ tBad.rows.zip tBadRecs,
      p.2.datum = parse_datum (getCell tBad.header p.1 "Datum") ∧
      p.2.vluchtduur = parse_vluchtduur (getCell tBad.header p.1 "Vluchtduur") :=
  C1_load_keeps_all_rows tBad tBadRecs rfl

/-- C2: the claim says a load with any missing required column fails with a
`SchemaError` listing exactly the missing columns.  Counterexample: with
`Datum` missing, `load_data` itself raises a `KeyError` on `Datum` before
the validation block can run, so no schema error listing the missing
column is produced. -/
theorem C2_counterexample :
    load_pipeline tMissingDatum = Except.error (LoadError.keyError "Datum") ∧
    load_pipeline tMissingDatum ≠ Except.error (LoadError.schemaError ["Datum"]) := by
  have h1 : load_pipeline tMissingDatum = Except.error (LoadError.keyError "Datum") := rfl
  refine ⟨h1, fun hcontra => ?_⟩
  rw [h1] at hcontra
  exact LoadError.noConfusion (Except.error.inj hcontra)

/-- C2 (amended): a table missing any required column never loads
successfully (zero records are produced), and when the two parsed columns
`Datum` and `Vluchtduur` are present the failure is the validation block's
schema error listing exactly the missing columns; when `Datum` or
`Vluchtduur` itself is missing the failure is a `KeyError` raised inside
`load_data`, after the whole dataframe was already materialized. -/
theorem C2_missing_columns_fail (t : Table) (h : missing_columns t ≠ []) :
    (∀ recs, load_pipeline t ≠ Except.ok recs) ∧
    ("Datum" ∈ t.header → "Vluchtduur" ∈ t.header →
      load_pipeline t = Except.error (LoadError.schemaError (missing_columns t))) := by
  by_cases h1 : "Datum" ∈ t.header
  · by_cases h2 : "Vluchtduur" ∈ t.header
    · have hld : load_data t = Except.ok (t.rows.map (mkRecord t.header)) := by
        unfold load_data
        rw [if_pos h1, if_pos h2]
      have hlp : load_pipeline t =
          Except.error (LoadError.schemaError (missing_columns t)) := by
        rw [load_pipeline_ok t _ hld, if_neg h]
      exact ⟨(fun recs hok => by rw [hlp] at hok; cases hok), fun _ _ => hlp⟩
    · have hld : load_data t = Except.error (LoadError.keyError "Vluchtduur") := by
        unfold load_data
        rw [if_pos h1, if_neg h2]
      have hlp : load_pipeline t = Except.error (LoadError.keyError "Vluchtduur") :=
        load_pipeline_err t _ hld
      exact ⟨(fun recs hok => by rw [hlp] at hok; cases hok),
        fun _ hcontra => absurd hcontra h2⟩
  · have hld : load_data t = Except.error (LoadError.keyError "Datum") := by
      unfold load_data
      rw [if_neg h1]
    have hlp : load_pipeline t = Except.error (LoadError.keyError "Datum") :=
      load_pipeline_err t _ hld
    exact ⟨(fun recs hok => by rw [hlp] at hok; cases hok),
      fun hcontra _ => absurd hcontra h1⟩

/-- C2 witness: the amended statement evaluated on `tMissingVeld`, which
lacks only the `Veld` column: the load stops with a schema error naming
exactly `Veld`. -/
theorem C2_witness :
    (∀ recs, load_pipeline tMissingVeld ≠ Except.ok recs) ∧
    ("Datum" ∈ tMissingVeld.header → "Vluchtduur" ∈ tMissingVeld.header →
      load_pipeline tMissingVeld =
        Except.error (LoadError.schemaError (missing_columns tMissingVeld))) :=
  C2_missing_columns_fail tMissingVeld (by decide)

/-- C3: the claim says `load(export(ds))` preserves every record up to a
one-second duration precision.  Counterexample: a single 1.5-hour flight
comes back with its duration column reread as nanoseconds
(`1.5` hours → `1/3600000000000` hours), far more than one second off. -/
theorem C3_counterexample :
    load_pipeline (to_excel_download [rtRec]) = Except.ok [rtRecBack] ∧
    ¬ durationWithinSecond rtRec.vluchtduur rtRecBack.vluchtduur := by
  constructor
  · rfl
  · show ¬ durationWithinSecond (some (mkRat 3 2)) (some (mkRat 1 3600000000000))
    simp only [durationWithinSecond, Rat.mkRat_eq_divInt, Rat.divInt_eq_div]
    push_cast
    rw [abs_of_pos (by norm_num)]
    norm_num

/-- C3 (amended): reloading the exported bytes reproduces every record in
order with `date`, `field`, `aircraft_type`, `registration` and
`launch_method` intact, but the duration column — written as a float count
of hours and reread by `pd.to_timedelta` under its default `ns` unit —
comes back scaled: `h` hours become `⌊h⌋ / 3600000000000` hours. -/
theorem C3_roundtrip_scales_duration (ds : List FlightRecord) :
    load_pipeline (to_excel_download ds) = Except.ok (ds.map scaleRec) := by
  have hld : load_data (to_excel_download ds) =
      Except.ok ((ds.map recordToRow).map (mkRecord expected_columns)) := rfl
  have hmiss : missing_columns (to_excel_download ds) = [] := rfl
  have hcomp : mkRecord expected_columns ∘ recordToRow = scaleRec :=
    funext mkRecord_recordToRow
  rw [load_pipeline_ok _ _ hld, if_pos hmiss, List.map_map, hcomp]

/-- C4: the claim says the recency table is computed from the same record
collection passed to the aggregation (the filtered subset when filters are
active), exactly like the starts and hours tables.  Counterexample: with
the type filter `["A"]` active, the page's recency table still contains
type `B`, because line 392 groups the unfiltered `df` rather than
`filtered_df`. -/
theorem C4_counterexample :
    (render_stats df4 [] ["A"] [] [] none none 100).recency ≠
      last_flights_table (filter_dataframe df4 [] ["A"] [] [] none none) 100 := by
  decide

/-- C4 (amended): the recency table is always computed from the full base
dataset, ignoring active filters (unlike `starts_per_type` and
`hours_per_type`, which consume the filtered subset); within that base
collection each entry's date is the maximum date among the type's records,
and its day count is `today - last` against the single reference instant
captured once per pass. -/
theorem C4_recency_from_base (df : List FlightRecord)
    (veld type_ registratie startmethode : List String) (start stop : Option ℤ)
    (today : ℤ) (ty : String) (ld dsn : Option ℤ)
    (hmem : (ty, ld, dsn) ∈
      (render_stats df veld type_ registratie startmethode start stop today).recency) :
    (render_stats df veld type_ registratie startmethode start stop today).recency =
      last_flights_table df today ∧
    dsn = ld.map (fun d => today - d) ∧
    ∀ d, ld = some d →
      (∃ rec ∈ df, rec.type_ = some ty ∧ rec.datum = some d) ∧
      (∀ rec ∈ df, rec.type_ = some ty → ∀ d2, rec.datum = some d2 → d2 ≤ d) := by
  have hmem2 : (ty, ld, dsn) ∈ last_flights_table df today := hmem
  rw [last_flights_table] at hmem2
  rcases List.mem_map.mp hmem2 with ⟨p, hp, heq⟩
  rw [last_flights] at hp
  rcases List.mem_map.mp hp with ⟨ty2, _, heq2⟩
  have hty : p.1 = ty := congrArg (fun x => x.1) heq
  have hld : p.2 = ld := congrArg (fun x => x.2.1) heq
  have hdsn : p.2.map (fun d => today - d) = dsn := congrArg (fun x => x.2.2) heq
  have hp2 : p.2 = maxDate df p.1 := by
    rw [← heq2]
  refine ⟨rfl, by rw [← hdsn, hld], fun d hd => ?_⟩
  apply maxDate_spec df ty d
  rw [← hty, ← hp2, hld, hd]

/-- C4 witness: the amended statement evaluated at the concrete dataset
`df4` (types `A` and `B`), with a type filter active and reference day
100: the `A` entry carries its base maximum date 20 and day count 80. -/
theorem C4_witness :
    (render_stats df4 [] ["A"] [] [] none none 100).recency =
      last_flights_table df4 100 ∧
    (some 80 : Option ℤ) = (some 20 : Option ℤ).map (fun d => (100 : ℤ) - d) ∧
    ∀ d, (some 20 : Option ℤ) = some d →
      (∃ rec ∈ df4, rec.type_ = some "A" ∧ rec.datum = some d) ∧
      (∀ rec ∈ df4, rec.type_ = some "A" → ∀ d2, rec.datum = some d2 → d2 ≤ d) :=
  C4_recency_from_base df4 [] ["A"] [] [] none none 100 "A" (some 20) (some 80)
    (by decide)

/-- C5: `filter_dataframe` returns exactly the ordered subsequence of the
input records satisfying every specified dimension — set membership is an
OR within a dimension, an AND across dimensions, and the two date bounds
are inclusive and independently usable — preserving relative order. -/
theorem C5_filter_exact (df : List FlightRecord)
    (veld type_ registratie startmethode : List String) (start stop : Option ℤ) :
    (filter_dataframe df veld type_ registratie startmethode start stop).Sublist df ∧
    ∀ rec, rec ∈ filter_dataframe df veld type_ registratie startmethode start stop ↔
      (rec ∈ df ∧ specSatisfies veld type_ registratie startmethode start stop rec) := by
  refine ⟨List.filter_sublist df, fun rec => ?_⟩
  rw [filter_dataframe, List.mem_filter, rowMask_iff]

/-- C6: filtering with the empty criteria — all four selections empty and
no date bounds — returns the dataset unchanged. -/
theorem C6_empty_filter_identity (df : List FlightRecord) :
    filter_dataframe df [] [] [] [] none none = df := by
  rw [filter_dataframe]
  exact List.filter_eq_self.mpr
    (fun r _ => by simp [rowMask, memMask, fromMask, toMask])

/-- C7: `hours_per_type` assigns every distinct aircraft type the sum of
its records' durations and returns the pairs sorted by descending total
hours; the key set is exactly the types occurring in the collection, each
once. -/
theorem C7_hours_descending (df : List FlightRecord) :
    List.Sorted hoursGE (hours_per_type df) ∧
    (∀ p ∈ hours_per_type df, p.2 = hoursSum df p.1) ∧
    (∀ ty : String,
      (∃ q, (ty, q) ∈ hours_per_type df) ↔ some ty ∈ df.map (fun r => r.type_)) ∧
    ((hours_per_type df).map Prod.fst).Nodup := by
  refine ⟨List.sorted_insertionSort hoursGE _, ?_, ?_, ?_⟩
  · intro p hp
    rw [hours_per_type, List.mem_insertionSort] at hp
    rcases List.mem_map.mp hp with ⟨ty, _, heq⟩
    rw [← heq]
  · intro ty
    constructor
    · rintro ⟨q, hq⟩
      rw [hours_per_type, List.mem_insertionSort] at hq
      rcases List.mem_map.mp hq with ⟨ty2, hty2, heq⟩
      have h2 : ty2 = ty := congrArg Prod.fst heq
      have hv : ty ∈ typeVals df := List.mem_dedup.mp (h2 ▸ hty2)
      rw [typeVals] at hv
      exact List.reduceOption_mem_iff.mp hv
    · intro hty
      refine ⟨hoursSum df ty, ?_⟩
      rw [hours_per_type, List.mem_insertionSort]
      refine List.mem_map.mpr ⟨ty, List.mem_dedup.mpr ?_, rfl⟩
      rw [typeVals]
      exact List.reduceOption_mem_iff.mpr hty
  · have hperm :=
      (List.perm_insertionSort hoursGE
        ((typeVals df).dedup.map (fun ty => (ty, hoursSum df ty)))).map Prod.fst
    rw [hours_per_type]
    apply hperm.nodup_iff.mpr
    rw [List.map_map]
    exact (List.nodup_dedup (typeVals df)).map (fun a b h => h)

/-- C8: the claim says the counts of `starts_per_type` always sum to the
length of the collection.  Counterexample: a single record whose `Type`
cell was blank is dropped by `value_counts` (pandas excludes `NaN` keys),
so the counts sum to 0 while the collection has length 1. -/
theorem C8_counterexample :
    ¬ (((starts_per_type [noTypeRec]).map Prod.snd).sum =
        ([noTypeRec] : List FlightRecord).length) := by
  decide

/-- C8 (amended): the counts of `starts_per_type` sum to the number of
records with a non-null `aircraft_type` (which equals the collection's
length exactly when every record has one), each such record being counted
under exactly one key. -/
theorem C8_starts_sum (df : List FlightRecord) :
    ((starts_per_type df).map Prod.snd).sum =
      (df.filter (fun r => r.type_.isSome)).length ∧
    ((starts_per_type df).map Prod.fst).Nodup := by
  constructor
  · have hperm :=
      ((List.perm_insertionSort countGE
        ((typeVals df).dedup.map (fun ty => (ty, (typeVals df).count ty)))).map
          Prod.snd).sum_eq
    rw [starts_per_type, hperm, List.map_map]
    exact (List.sum_map_count_dedup_eq_length (typeVals df)).trans (typeVals_length df)
  · have hperm :=
      (List.perm_insertionSort countGE
        ((typeVals df).dedup.map (fun ty => (ty, (typeVals df).count ty)))).map
          Prod.fst
    rw [starts_per_type]
    apply hperm.nodup_iff.mpr
    rw [List.map_map]
    exact (List.nodup_dedup (typeVals df)).map (fun a b h => h)

/-- C9: the `veld_coords` dict literal assigns `Terlet` twice; under
Python's dict-literal semantics the later assignment wins, so every lookup
of `Terlet` yields `(52.0603, 5.9386)` and the earlier pair
`(52.051, 5.936)` is never the result of any lookup. -/
theorem C9_terlet_last_wins :
    dictGet veld_coords "Terlet" = some (mkRat 520603 10000, mkRat 59386 10000) ∧
    ∀ k, dictGet veld_coords k ≠ some (mkRat 52051 1000, mkRat 5936 1000) := by
  constructor
  · decide
  · intro k h
    rcases dict_foldl_mem veld_coords none k _ h with hmem | hacc
    · have hall : ∀ p ∈ veld_coords,
          p.2 = (mkRat 52051 1000, mkRat 5936 1000) → p.1 = "Terlet" := by decide
      have hk : k = "Terlet" := hall (k, _) hmem rfl
      subst hk
      revert h
      decide
    · cases hacc

/-- C10: a record with an unparseable (absent) date is excluded from the
filter result whenever a lower or upper date bound is specified, but when
neither bound is given it survives subject only to the four categorical
set constraints. -/
theorem C10_null_date_asymmetry (df : List FlightRecord)
    (veld type_ registratie startmethode : List String) (start stop : Option ℤ)
    (rec : FlightRecord) (hd : rec.datum = none) :
    ((start ≠ none ∨ stop ≠ none) →
      rec ∉ filter_dataframe df veld type_ registratie startmethode start stop) ∧
    (rec ∈ df →
      (rec ∈ filter_dataframe df veld type_ registratie startmethode none none ↔
        (memMask veld rec.veld && memMask type_ rec.type_ &&
          memMask registratie rec.registratie &&
          memMask startmethode rec.startmethode) = true)) := by
  constructor
  · rintro hbound hmem
    have hmask := (List.mem_filter.mp hmem).2
    simp only [rowMask, hd, Bool.and_eq_true] at hmask
    rcases hbound with hst | hen
    · rcases Option.ne_none_iff_exists'.mp hst with ⟨s0, hs0⟩
      rw [hs0] at hmask
      exact absurd hmask.1.2 (by simp [fromMask])
    · rcases Option.ne_none_iff_exists'.mp hen with ⟨e0, he0⟩
      rw [he0] at hmask
      exact absurd hmask.2 (by simp [toMask])
  · intro hdf
    rw [filter_dataframe, List.mem_filter]
    simp only [rowMask, fromMask, toMask, Bool.and_true]
    exact and_iff_right hdf

/-- C10 witness: the concrete dateless record `rec0` is rejected once a
lower bound is present, and with no bounds its survival reduces to the
categorical constraints. -/
theorem C10_witness :
    (rec0 ∉ filter_dataframe [rec0] [] [] [] [] (some 0) none) ∧
    (rec0 ∈ filter_dataframe [rec0] [] [] [] [] none none ↔
      (memMask [] rec0.veld && memMask [] rec0.type_ &&
        memMask [] rec0.registratie && memMask [] rec0.startmethode) = true) := by
  have h := C10_null_date_asymmetry [rec0] [] [] [] [] (some 0) none rec0 rfl
  exact ⟨h.1 (Or.inl (by decide)), h.2 (by decide)⟩
